import Mathlib

/-!
Verification development for the qudi `OptimizerLogic` module
(`logic/optimizer_logic.py`): a shallow embedding of the scan-grid
builder, the XY/Z position-update (bounds-validation) logic, the line
scanner with its error handling, and the queued-signal step sequencer,
together with theorems settling the specification claims.

Real-valued quantities (positions, sizes, count values) are modelled
over `ℚ`; `numpy` floating point is treated as exact arithmetic.
-/

namespace OptimizerLogic

/-- Model of `np.clip(x, lo, hi)`: equivalent to `min(max(x, lo), hi)`. -/
def clip (x lo hi : ℚ) : ℚ := min (max x lo) hi

/-- Model of `np.linspace(a, b, num = n)`: `n` evenly spaced points from `a` to `b`
inclusive.  For `n = 1` numpy returns `[a]`, which the formula below also
yields because `0 / 0 = 0` in `ℚ`. -/
def linspace (a b : ℚ) (n : ℕ) : List ℚ :=
  (List.range n).map (fun i : ℕ => a + (b - a) * (i : ℚ) / ((n : ℚ) - 1))

/-- The configuration and hardware-range data the optimizer reads:
`x_range`/`y_range`/`z_range` from `get_position_range()`, the status
variables `refocus_XY_size`, `optimizer_XY_res`, `refocus_Z_size`,
`optimizer_Z_res`, and the module constant `_max_offset`. -/
structure Cfg where
  x_range : ℚ × ℚ
  y_range : ℚ × ℚ
  z_range : ℚ × ℚ
  refocus_XY_size : ℚ
  optimizer_XY_res : ℕ
  refocus_Z_size : ℚ
  optimizer_Z_res : ℕ
  max_offset : ℚ
  deriving DecidableEq

/-- From `_initialize_xy_refocus_image`: the forward X sweep
`self._X_values = np.linspace(xmin, xmax, num=self.optimizer_XY_res)` with
`xmin/xmax = np.clip(x0 ∓ 0.5 * refocus_XY_size, x_range[0], x_range[1])`. -/
def X_values (cfg : Cfg) (x0 : ℚ) : List ℚ :=
  linspace (clip (x0 - 1/2 * cfg.refocus_XY_size) cfg.x_range.1 cfg.x_range.2)
           (clip (x0 + 1/2 * cfg.refocus_XY_size) cfg.x_range.1 cfg.x_range.2)
           cfg.optimizer_XY_res

/-- From `_initialize_xy_refocus_image`: the Y sweep
`self._Y_values = np.linspace(ymin, ymax, num=self.optimizer_XY_res)`. -/
def Y_values (cfg : Cfg) (y0 : ℚ) : List ℚ :=
  linspace (clip (y0 - 1/2 * cfg.refocus_XY_size) cfg.y_range.1 cfg.y_range.2)
           (clip (y0 + 1/2 * cfg.refocus_XY_size) cfg.y_range.1 cfg.y_range.2)
           cfg.optimizer_XY_res

/-- From `_initialize_xy_refocus_image`: the return sweep
`self._return_X_values = np.linspace(xmax, xmin, num=self.optimizer_XY_res)`. -/
def return_X_values (cfg : Cfg) (x0 : ℚ) : List ℚ :=
  linspace (clip (x0 + 1/2 * cfg.refocus_XY_size) cfg.x_range.1 cfg.x_range.2)
           (clip (x0 - 1/2 * cfg.refocus_XY_size) cfg.x_range.1 cfg.x_range.2)
           cfg.optimizer_XY_res

/-- From `_initialize_z_refocus_image`: the Z line
`self._zimage_Z_values = np.linspace(zmin, zmax, num=self.optimizer_Z_res)` with
`zmin/zmax = np.clip(z0 ∓ 0.5 * refocus_Z_size, z_range[0], z_range[1])`. -/
def zimage_Z_values (cfg : Cfg) (z0 : ℚ) : List ℚ :=
  linspace (clip (z0 - 1/2 * cfg.refocus_Z_size) cfg.z_range.1 cfg.z_range.2)
           (clip (z0 + 1/2 * cfg.refocus_Z_size) cfg.z_range.1 cfg.z_range.2)
           cfg.optimizer_Z_res

/-- The fields of a 2D-Gaussian fit result (`result_2D_gaus`) that
`_set_optimized_xy_from_fit` consumes: `success` and
`best_values['center_x'/'center_y'/'sigma_x'/'sigma_y']`. -/
structure XYFitResult where
  success : Bool
  center_x : ℚ
  center_y : ℚ
  sigma_x : ℚ
  sigma_y : ℚ
  deriving DecidableEq

/-- The fields of a 1D-Gaussian fit result that `do_z_optimization`
consumes: `success` and `best_values['center'/'sigma']`. -/
structure ZFitResult where
  success : Bool
  center : ℚ
  sigma : ℚ
  deriving DecidableEq

/-- The best-estimate slots of the optimizer
(`optim_pos_x/y/z`, `optim_sigma_x/y/z`). -/
structure OptimState where
  optim_pos_x : ℚ
  optim_pos_y : ℚ
  optim_pos_z : ℚ
  optim_sigma_x : ℚ
  optim_sigma_y : ℚ
  optim_sigma_z : ℚ
  deriving DecidableEq

/-- The fit-consuming tail of `_set_optimized_xy_from_fit`
(`optimizer_logic.py` lines 510–530), taken verbatim from the source:
on fit failure fall back to `_initial_pos_x/_initial_pos_y` with zero
sigma; on success the offset guard tests
`abs(_initial_pos_x - center_x) < _max_offset` **twice** (the source
never tests the y offset), then the x- and y-range membership of the
fitted center, updating the estimate only when all three tests pass;
the `else` of the offset guard falls back to the initial position. -/
def set_optimized_xy_from_fit (cfg : Cfg) (initial_pos_x initial_pos_y : ℚ)
    (r : XYFitResult) (s : OptimState) : OptimState :=
  if r.success = false then
    { s with optim_pos_x := initial_pos_x, optim_pos_y := initial_pos_y,
             optim_sigma_x := 0, optim_sigma_y := 0 }
  else
    if |initial_pos_x - r.center_x| < cfg.max_offset ∧
       |initial_pos_x - r.center_x| < cfg.max_offset then
      if cfg.x_range.1 ≤ r.center_x ∧ r.center_x ≤ cfg.x_range.2 then
        if cfg.y_range.1 ≤ r.center_y ∧ r.center_y ≤ cfg.y_range.2 then
          { s with optim_pos_x := r.center_x, optim_pos_y := r.center_y,
                   optim_sigma_x := r.sigma_x, optim_sigma_y := r.sigma_y }
        else s
      else s
    else
      { s with optim_pos_x := initial_pos_x, optim_pos_y := initial_pos_y,
               optim_sigma_x := 0, optim_sigma_y := 0 }

/-- The fit-consuming tail of `do_z_optimization`
(`optimizer_logic.py` lines 648–691), taken verbatim from the source:
on fit failure fall back to `_initial_pos_z` with zero sigma; on
success, if `abs(_initial_pos_z - center) < _max_offset` then either
accept an in-range center, or (out of range) zero the sigma and move to
`_initial_pos_z + 0.5 * refocus_Z_size` — the source uses `+` in **both**
direction branches — clipped against the relevant range limit; when the
offset bound is exceeded the source has no `else` branch and the state
is left unchanged. -/
def do_z_optimization_update (cfg : Cfg) (initial_pos_z : ℚ)
    (r : ZFitResult) (s : OptimState) : OptimState :=
  if r.success = false then
    { s with optim_pos_z := initial_pos_z, optim_sigma_z := 0 }
  else
    if |initial_pos_z - r.center| < cfg.max_offset then
      if cfg.z_range.1 ≤ r.center ∧ r.center ≤ cfg.z_range.2 then
        { s with optim_pos_z := r.center, optim_sigma_z := r.sigma }
      else
        let s0 := { s with optim_sigma_z := (0:ℚ) }
        if initial_pos_z < r.center then
          if initial_pos_z + 1/2 * cfg.refocus_Z_size ≤ cfg.z_range.2 then
            { s0 with optim_pos_z := initial_pos_z + 1/2 * cfg.refocus_Z_size }
          else
            { s0 with optim_pos_z := cfg.z_range.2 }
        else
          if cfg.z_range.1 ≤ initial_pos_z + 1/2 * cfg.refocus_Z_size then
            { s0 with optim_pos_z := initial_pos_z + 1/2 * cfg.refocus_Z_size }
          else
            { s0 with optim_pos_z := cfg.z_range.1 }
    else s

/-- Model of `check_optimization_sequence`: a sequence containing anything other
than `'XY'` and `'Z'` is replaced by the default `['XY', 'Z']`. -/
def check_optimization_sequence (seq : List String) : List String :=
  if seq.all (fun st => st == "XY" || st == "Z") then seq else ["XY", "Z"]

/-! ### The queued-signal state machine

The optimizer drives itself through Qt queued connections: each signal
emission appends an event to a FIFO queue and each queued event invokes
its slot.  The machine below replays exactly that discipline.  The
external scanning device is an oracle `device : ℕ → Counts` giving the
counts returned by the n-th `scan_line` call of the run, and the
external fit service is an oracle indexed by the n-th fit invocation. -/

/-- The counts matrix returned by `scan_line` (samples × channels). -/
abbrev Counts := List (List ℚ)

/-- Model of `np.any(counts == -1)`: the device's error sentinel occurs somewhere. -/
def hasErr (m : Counts) : Bool := m.any (fun row => row.any (fun v => v = -1))

/-- Model of `np.any(counts[0] == -1)`: the sentinel occurs in the **first sample**
(the check the source applies to the surface-subtraction background line). -/
def firstRowHasErr (m : Counts) : Bool :=
  match m with
  | [] => false
  | row :: _ => row.any (fun v => v = -1)

/-- Elementwise difference of two equally shaped counts matrices. -/
def matSub (a b : Counts) : Counts :=
  List.zipWith (fun ra rb => List.zipWith (fun x y => x - y) ra rb) a b

/-- The queued signals that drive the optimizer. -/
inductive Event where
  | scanNextXyLine
  | scanZLine
  | completedXyOptimizerScan
  | doNextOptimizationStep
  | finishedAllOptimizationSteps
  deriving DecidableEq

/-- Per-run static data: the device and fit-service oracles plus the
configuration fields the sequencer reads. -/
structure MCfg where
  device : ℕ → Counts
  xyFit : ℕ → XYFitResult
  zFit : ℕ → ZFitResult
  cfg : Cfg
  caller_tag : String
  fit_type : String
  template_cursor : ℚ × ℚ × ℚ
  optimization_sequence : List String
  do_surface_subtraction : Bool
  n_ch : ℕ

/-- The mutable run state: stop flag, per-line and per-step counters,
`_initial_pos_*`, the best-estimate slots, the event queue, call
counters for the device and fit oracles, the number of `kill_scanner`
invocations, the emitted `sigRefocusFinished` payloads, and the scan
data buffers (an image row is `none` until its line has been scanned). -/
structure MState where
  stopRequested : Bool
  xy_scan_line_count : ℕ
  optimization_step : ℕ
  initial_pos_x : ℚ
  initial_pos_y : ℚ
  initial_pos_z : ℚ
  optim : OptimState
  queue : List Event
  scanCallCount : ℕ
  xyFitCount : ℕ
  zFitCount : ℕ
  killCount : ℕ
  finishedEvents : List (String × List ℚ)
  xy_refocus_image : List (Option Counts)
  xy_template_image : List (Option Counts)
  z_refocus_line : Option Counts
  z_template_data : Option Counts
  deriving DecidableEq

/-- Append one queued signal emission. -/
def emit (e : Event) (s : MState) : MState := { s with queue := s.queue ++ [e] }

/-- Model of `stop_refocus`: sets `stopRequested` and (since the flag is now set)
emits `_sigScanNextXyLine`. -/
def stop_refocus (s : MState) : MState :=
  emit Event.scanNextXyLine { s with stopRequested := true }

/-- One `scan_line` call against the device oracle. -/
def scanLineCall (mc : MCfg) (s : MState) : Counts × MState :=
  (mc.device s.scanCallCount, { s with scanCallCount := s.scanCallCount + 1 })

/-- Model of `_move_to_start_pos`: one interpolated `scan_line` move whose counts
are checked for the sentinel; returns `-1` on failure, `0` otherwise. -/
def move_to_start_pos (mc : MCfg) (s : MState) : Int × MState :=
  let p := scanLineCall mc s
  (if hasErr p.1 then -1 else 0, p.2)

/-- Holds when `fit_type in ('xy_template', 'all_template')`. -/
def isXyTemplateFit (mc : MCfg) : Prop :=
  mc.fit_type = "xy_template" ∨ mc.fit_type = "all_template"

/-- Holds when `fit_type in ('z_template', 'all_template')`. -/
def isZTemplateFit (mc : MCfg) : Prop :=
  mc.fit_type = "z_template" ∨ mc.fit_type = "all_template"

instance (mc : MCfg) : Decidable (isXyTemplateFit mc) := by
  unfold isXyTemplateFit; infer_instance

instance (mc : MCfg) : Decidable (isZTemplateFit mc) := by
  unfold isZTemplateFit; infer_instance

/-- Model of `finish_refocus`: releases the scanner (`kill_scanner`), re-adds the
template cursor to `_initial_pos_*` and `optim_pos_*` when a template
fit mode is active, and emits `sigRefocusFinished` with
`[optim_pos_x, optim_pos_y, optim_pos_z, 0][0:n_ch]`. -/
def finish_refocus (mc : MCfg) (s : MState) : MState :=
  let s1 := { s with killCount := s.killCount + 1 }
  let s2 :=
    if isXyTemplateFit mc then
      { s1 with
        initial_pos_x := s1.initial_pos_x + mc.template_cursor.1,
        initial_pos_y := s1.initial_pos_y + mc.template_cursor.2.1,
        optim := { s1.optim with
          optim_pos_x := s1.optim.optim_pos_x + mc.template_cursor.1,
          optim_pos_y := s1.optim.optim_pos_y + mc.template_cursor.2.1 } }
    else s1
  let s3 :=
    if isZTemplateFit mc then
      { s2 with
        initial_pos_z := s2.initial_pos_z + mc.template_cursor.2.2,
        optim := { s2.optim with
          optim_pos_z := s2.optim.optim_pos_z + mc.template_cursor.2.2 } }
    else s2
  { s3 with finishedEvents := s3.finishedEvents ++
      [(mc.caller_tag,
        ([s3.optim.optim_pos_x, s3.optim.optim_pos_y, s3.optim.optim_pos_z, 0]).take mc.n_ch)] }

/-- Models `np.max(self.xy_template_image) == 0` for a template that has
never been captured: every row still holds its all-zero initial value. -/
def xyTemplateIsBlank (s : MState) : Bool :=
  s.xy_template_image.all (fun r => r = none)

/-- Model of `_initialize_xy_refocus_image` (sequencer-relevant effects): reset
the line counter and the image buffer; when the run is an
`'xy_template_image'` capture, or the stored template is still blank,
reset the template buffer as well. -/
def initialize_xy_refocus_image (mc : MCfg) (s : MState) : MState :=
  let s1 := { s with xy_scan_line_count := 0,
                     xy_refocus_image := List.replicate mc.cfg.optimizer_XY_res none }
  if mc.caller_tag = "xy_template_image" ∨ xyTemplateIsBlank s1 then
    { s1 with xy_template_image := List.replicate mc.cfg.optimizer_XY_res none }
  else s1

/-- Models `np.max(self.z_template_data) == 0` for a never-captured line. -/
def zTemplateIsBlank (s : MState) : Bool := s.z_template_data = none

/-- Model of `_initialize_z_refocus_image` (sequencer-relevant effects). -/
def initialize_z_refocus_image (mc : MCfg) (s : MState) : MState :=
  let s1 := { s with xy_scan_line_count := 0, z_refocus_line := none }
  if mc.caller_tag = "z_template_image" ∨ zTemplateIsBlank s1 then
    { s1 with z_template_data := none }
  else s1

/-- Model of `_refocus_xy_line` (slot of `_sigScanNextXyLine`): on a pending stop
request, clear the flag and finish; otherwise move to the line start
(first line only), scan the forward line and the return trace — any
sentinel triggers `stop_refocus()` plus one more `_sigScanNextXyLine`
emission — store the forward counts into the image (and into the
template when capturing), advance the line counter, and emit either the
next-line or the scan-completed signal. -/
def refocus_xy_line (mc : MCfg) (s : MState) : MState :=
  if s.stopRequested then
    finish_refocus mc { s with stopRequested := false }
  else
    let m :=
      if s.xy_scan_line_count = 0 then
        let p := move_to_start_pos mc s
        (decide (p.1 < 0), p.2)
      else (false, s)
    if m.1 then
      emit Event.scanNextXyLine (stop_refocus m.2)
    else
      let p1 := scanLineCall mc m.2
      if hasErr p1.1 then
        emit Event.scanNextXyLine (stop_refocus p1.2)
      else
        let p2 := scanLineCall mc p1.2
        if hasErr p2.1 then
          emit Event.scanNextXyLine (stop_refocus p2.2)
        else
          let s1 := { p2.2 with xy_refocus_image :=
                        p2.2.xy_refocus_image.set p2.2.xy_scan_line_count (some p1.1) }
          let s2 :=
            if mc.caller_tag = "xy_template_image" then
              { s1 with xy_template_image :=
                  s1.xy_template_image.set s1.xy_scan_line_count (some p1.1) }
            else s1
          let s3 := { s2 with xy_scan_line_count := s2.xy_scan_line_count + 1 }
          if s3.xy_scan_line_count < mc.cfg.optimizer_XY_res then
            emit Event.scanNextXyLine s3
          else
            emit Event.completedXyOptimizerScan s3

/-- Model of `_set_optimized_xy_from_fit` (slot of `_sigCompletedXyOptimizerScan`):
for an `'xy_template_image'` capture run no fit is invoked and the
estimate is reset to the initial position; otherwise one fit-service
call is consumed and the bounds-validation tail runs.  Both paths emit
`_sigDoNextOptimizationStep`. -/
def set_optimized_xy_from_fit_step (mc : MCfg) (s : MState) : MState :=
  if mc.caller_tag = "xy_template_image" then
    emit Event.doNextOptimizationStep
      { s with optim := { s.optim with
          optim_pos_x := s.initial_pos_x, optim_pos_y := s.initial_pos_y,
          optim_sigma_x := 0, optim_sigma_y := 0 } }
  else
    let r := mc.xyFit s.xyFitCount
    let s1 := { s with xyFitCount := s.xyFitCount + 1 }
    emit Event.doNextOptimizationStep
      { s1 with optim :=
          set_optimized_xy_from_fit mc.cfg s1.initial_pos_x s1.initial_pos_y r s1.optim }

/-- Model of `_scan_z_line`: move to the line start, scan the primary Z line
(any sentinel → `stop_refocus()` and return), store it (also as the
template during a `'z_template_image'` capture); with surface
subtraction enabled, move laterally, scan the background line — only
its **first sample** is checked for the sentinel — and store the
elementwise difference instead. -/
def scan_z_line (mc : MCfg) (s : MState) : MState :=
  let m := move_to_start_pos mc s
  if m.1 < 0 then stop_refocus m.2
  else
    let p1 := scanLineCall mc m.2
    if hasErr p1.1 then stop_refocus p1.2
    else
      let s1 := { p1.2 with z_refocus_line := some p1.1 }
      let s2 := if mc.caller_tag = "z_template_image"
                then { s1 with z_template_data := some p1.1 } else s1
      if mc.do_surface_subtraction then
        let m2 := move_to_start_pos mc s2
        if m2.1 < 0 then stop_refocus m2.2
        else
          let p2 := scanLineCall mc m2.2
          if firstRowHasErr p2.1 then stop_refocus p2.2
          else
            let s3 := { p2.2 with z_refocus_line := some (matSub p1.1 p2.1) }
            if mc.caller_tag = "z_template_image" then
              { s3 with z_template_data := some (matSub p1.1 p2.1) }
            else s3
      else s2

/-- Model of `do_z_optimization` (slot of `_sigScanZLine`): scan the Z line, then
for a `'z_template_image'` capture reset the Z estimate without
fitting, otherwise consume one fit-service call and run the Z
bounds-validation tail.  Both paths emit `_sigDoNextOptimizationStep`
(the source never checks whether `_scan_z_line` failed). -/
def do_z_optimization_step (mc : MCfg) (s : MState) : MState :=
  let s0 := scan_z_line mc s
  if mc.caller_tag = "z_template_image" then
    emit Event.doNextOptimizationStep
      { s0 with optim := { s0.optim with
          optim_pos_z := s0.initial_pos_z, optim_sigma_z := 0 } }
  else
    let r := mc.zFit s0.zFitCount
    let s1 := { s0 with zFitCount := s0.zFitCount + 1 }
    emit Event.doNextOptimizationStep
      { s1 with optim := do_z_optimization_update mc.cfg s1.initial_pos_z r s1.optim }

/-- Model of `_do_next_optimization_step` (slot of `_sigDoNextOptimizationStep`):
template-capture tags run exactly one step; otherwise the configured
sequence is walked by `_optimization_step`, finishing when exhausted. -/
def do_next_optimization_step (mc : MCfg) (s : MState) : MState :=
  if mc.caller_tag = "xy_template_image" then
    if 1 ≤ s.optimization_step then
      emit Event.finishedAllOptimizationSteps s
    else
      emit Event.scanNextXyLine
        (initialize_xy_refocus_image mc { s with optimization_step := s.optimization_step + 1 })
  else if mc.caller_tag = "z_template_image" then
    if 1 ≤ s.optimization_step then
      emit Event.finishedAllOptimizationSteps s
    else
      emit Event.scanZLine
        (initialize_z_refocus_image mc { s with optimization_step := s.optimization_step + 1 })
  else if s.optimization_step = mc.optimization_sequence.length then
    emit Event.finishedAllOptimizationSteps s
  else
    let this_step := mc.optimization_sequence.getD s.optimization_step ""
    let s1 := { s with optimization_step := s.optimization_step + 1 }
    if this_step = "XY" then
      emit Event.scanNextXyLine (initialize_xy_refocus_image mc s1)
    else if this_step = "Z" then
      emit Event.scanZLine (initialize_z_refocus_image mc s1)
    else s1

/-- Dispatch one queued event to its slot. -/
def stepM (mc : MCfg) (s : MState) : MState :=
  match s.queue with
  | [] => s
  | e :: rest =>
    let s1 := { s with queue := rest }
    match e with
    | Event.scanNextXyLine => refocus_xy_line mc s1
    | Event.scanZLine => do_z_optimization_step mc s1
    | Event.completedXyOptimizerScan => set_optimized_xy_from_fit_step mc s1
    | Event.doNextOptimizationStep => do_next_optimization_step mc s1
    | Event.finishedAllOptimizationSteps => finish_refocus mc s1

/-- Process `n` queued events in order. -/
def runM (mc : MCfg) : ℕ → MState → MState
  | 0, s => s
  | n + 1, s => runM mc n (stepM mc s)

/-- The state `start_refocus(initial_pos = (rx, ry, rz))` leaves behind
after a successful `start_scanner()`: the template cursor is subtracted
from the requested position when a template fit mode is active, the
best estimate is initialised to the (shifted) initial position with
zero sigmas, the counters are reset, and one
`_sigDoNextOptimizationStep` is queued. -/
def start_refocus_state (mc : MCfg) (rx ry rz : ℚ) : MState :=
  let ix := if isXyTemplateFit mc then rx - mc.template_cursor.1 else rx
  let iy := if isXyTemplateFit mc then ry - mc.template_cursor.2.1 else ry
  let iz := if isZTemplateFit mc then rz - mc.template_cursor.2.2 else rz
  { stopRequested := false
    xy_scan_line_count := 0
    optimization_step := 0
    initial_pos_x := ix
    initial_pos_y := iy
    initial_pos_z := iz
    optim := { optim_pos_x := ix, optim_pos_y := iy, optim_pos_z := iz,
               optim_sigma_x := 0, optim_sigma_y := 0, optim_sigma_z := 0 }
    queue := [Event.doNextOptimizationStep]
    scanCallCount := 0
    xyFitCount := 0
    zFitCount := 0
    killCount := 0
    finishedEvents := []
    xy_refocus_image := []
    xy_template_image := []
    z_refocus_line := none
    z_template_data := none }

/-! ### Concrete configurations used to instantiate the theorems -/

/-- A benign configuration: symmetric ranges, default-like sizes. -/
def cfgWide : Cfg :=
  { x_range := (-1000, 1000), y_range := (-1000, 1000), z_range := (-1000, 1000)
    refocus_XY_size := 3/5, optimizer_XY_res := 10
    refocus_Z_size := 2, optimizer_Z_res := 30, max_offset := 3 }

/-- Configuration exercising the Z edge-seeking branches:
`z_range = [-10, 10]`, `refocus_Z_size = 2`, `_max_offset = 3`. -/
def cfgZ : Cfg :=
  { x_range := (-10, 10), y_range := (-10, 10), z_range := (-10, 10)
    refocus_XY_size := 2, optimizer_XY_res := 10
    refocus_Z_size := 2, optimizer_Z_res := 30, max_offset := 3 }

/-- Configuration with a single-point XY resolution (`optimizer_XY_res = 1`). -/
def cfgRes1 : Cfg :=
  { x_range := (-10, 10), y_range := (-10, 10), z_range := (-10, 10)
    refocus_XY_size := 2, optimizer_XY_res := 1
    refocus_Z_size := 2, optimizer_Z_res := 30, max_offset := 3 }

/-- Configuration for whole-run traces: 2×2 XY grid, ranges `[0, 10]`. -/
def cfgRun : Cfg :=
  { x_range := (0, 10), y_range := (0, 10), z_range := (0, 10)
    refocus_XY_size := 1, optimizer_XY_res := 2
    refocus_Z_size := 1, optimizer_Z_res := 2, max_offset := 3 }

/-- Run configuration for the mid-scan sentinel trace: the device fails
(returns `-1`) on the forward scan of the first XY line — the second
`scan_line` call of the run — and behaves normally on every other call. -/
def mcSentinel : MCfg :=
  { device := fun n => if n = 1 then [[-1]] else [[5]]
    xyFit := fun _ => { success := true, center_x := 5, center_y := 5, sigma_x := 1, sigma_y := 1 }
    zFit := fun _ => { success := true, center := 5, sigma := 1 }
    cfg := cfgRun
    caller_tag := "confocalgui"
    fit_type := "normal"
    template_cursor := (0, 0, 0)
    optimization_sequence := ["XY"]
    do_surface_subtraction := false
    n_ch := 3 }

/-- Run configuration for the surface-subtraction counterexample: the
background Z line (fourth `scan_line` call) carries the sentinel in its
**second** sample only. -/
def mcBackground : MCfg :=
  { device := fun n => if n = 1 then [[8], [6]] else if n = 3 then [[3], [-1]] else [[2], [2]]
    xyFit := fun _ => { success := false, center_x := 0, center_y := 0, sigma_x := 0, sigma_y := 0 }
    zFit := fun _ => { success := false, center := 0, sigma := 0 }
    cfg := cfgRun
    caller_tag := "confocalgui"
    fit_type := "normal"
    template_cursor := (0, 0, 0)
    optimization_sequence := ["Z"]
    do_surface_subtraction := true
    n_ch := 3 }

/-- Run configuration for a healthy `'xy_template_image'` capture run
with a 2×2 grid and an error-free device. -/
def mcCapture : MCfg :=
  { device := fun _ => [[7], [9]]
    xyFit := fun _ => { success := true, center_x := 0, center_y := 0, sigma_x := 0, sigma_y := 0 }
    zFit := fun _ => { success := true, center := 0, sigma := 0 }
    cfg := cfgRun
    caller_tag := "xy_template_image"
    fit_type := "xy_template"
    template_cursor := (1, 2, 3)
    optimization_sequence := ["XY", "Z"]
    do_surface_subtraction := false
    n_ch := 3 }

/-- Run configuration with an empty optimization sequence. -/
def mcEmptySeq : MCfg :=
  { device := fun _ => [[5], [5]]
    xyFit := fun _ => { success := true, center_x := 0, center_y := 0, sigma_x := 0, sigma_y := 0 }
    zFit := fun _ => { success := true, center := 0, sigma := 0 }
    cfg := cfgRun
    caller_tag := "confocalgui"
    fit_type := "normal"
    template_cursor := (0, 0, 0)
    optimization_sequence := []
    do_surface_subtraction := false
    n_ch := 3 }

/-! ### Intermediate states of an `'xy_template_image'` capture run -/

/-- Image/template buffer of a capture run after the first `k` lines:
row `i` holds the counts of the forward scan of line `i` — the
`(2i+1)`-th `scan_line` call — once `i < k`, and is untouched beyond. -/
def xyCaptureFill (mc : MCfg) (k : ℕ) : List (Option Counts) :=
  (List.range mc.cfg.optimizer_XY_res).map
    (fun i => if i < k then some (mc.device (2 * i + 1)) else none)

/-- State of a capture run right after the first
`_do_next_optimization_step` dispatched the XY scan. -/
def xyCaptureStart (mc : MCfg) (rx ry rz : ℚ) : MState :=
  { start_refocus_state mc rx ry rz with
      optimization_step := 1
      xy_refocus_image := List.replicate mc.cfg.optimizer_XY_res none
      xy_template_image := List.replicate mc.cfg.optimizer_XY_res none
      queue := [Event.scanNextXyLine] }

/-- State of a capture run after `k ≥ 1` full line iterations: `2k + 1`
device calls have happened and the next queued event continues the scan
(or completes it when all lines are done). -/
def xyCaptureMid (mc : MCfg) (rx ry rz : ℚ) (k : ℕ) : MState :=
  { start_refocus_state mc rx ry rz with
      optimization_step := 1
      xy_scan_line_count := k
      scanCallCount := 2 * k + 1
      xy_refocus_image := xyCaptureFill mc k
      xy_template_image := xyCaptureFill mc k
      queue := if k < mc.cfg.optimizer_XY_res then [Event.scanNextXyLine]
               else [Event.completedXyOptimizerScan] }

/-! ### General lemmas -/

lemma clip_mem {lo hi : ℚ} (x : ℚ) (h : lo ≤ hi) :
    lo ≤ clip x lo hi ∧ clip x lo hi ≤ hi := by
  unfold clip
  exact ⟨le_min (le_max_right x lo) h, min_le_right _ _⟩

lemma linspace_mem {a b lo hi : ℚ} (ha1 : lo ≤ a) (ha2 : a ≤ hi)
    (hb1 : lo ≤ b) (hb2 : b ≤ hi) {n : ℕ} {c : ℚ}
    (hc : c ∈ linspace a b n) : lo ≤ c ∧ c ≤ hi := by
  unfold linspace at hc
  simp only [List.mem_map, List.mem_range] at hc
  obtain ⟨i, hin, rfl⟩ := hc
  by_cases h1 : n = 1
  · subst h1
    have hi0 : i = 0 := by omega
    subst hi0
    norm_num
    exact ⟨ha1, ha2⟩
  · have hn2 : 2 ≤ n := by omega
    have hd : (0:ℚ) < (n:ℚ) - 1 := by
      have : (2:ℚ) ≤ (n:ℚ) := by exact_mod_cast hn2
      linarith
    have ht0 : (0:ℚ) ≤ (i:ℚ) / ((n:ℚ) - 1) :=
      div_nonneg (Nat.cast_nonneg i) hd.le
    have ht1 : (i:ℚ) / ((n:ℚ) - 1) ≤ 1 := by
      rw [div_le_one hd]
      have : (i:ℚ) + 1 ≤ (n:ℚ) := by exact_mod_cast hin
      linarith
    set t : ℚ := (i:ℚ) / ((n:ℚ) - 1) with htdef
    have hform : a + (b - a) * (i:ℚ) / ((n:ℚ) - 1) = a + (b - a) * t := by
      rw [htdef]; ring
    rw [hform]
    constructor
    · nlinarith [mul_nonneg (sub_nonneg.mpr ht1) (sub_nonneg.mpr ha1),
                 mul_nonneg ht0 (sub_nonneg.mpr hb1)]
    · nlinarith [mul_nonneg (sub_nonneg.mpr ht1) (sub_nonneg.mpr ha2),
                 mul_nonneg ht0 (sub_nonneg.mpr hb2)]

/-- C4: for every configured center, window size, resolution and
physical range (with `min ≤ max`), every coordinate of the generated XY
sweeps and of the Z line lies within the closed physical range of its
axis, because the window edges are clamped before the linear spacing is
built. -/
theorem grid_coordinates_in_range (cfg : Cfg) (x0 y0 z0 : ℚ)
    (hx : cfg.x_range.1 ≤ cfg.x_range.2)
    (hy : cfg.y_range.1 ≤ cfg.y_range.2)
    (hz : cfg.z_range.1 ≤ cfg.z_range.2) :
    (∀ c ∈ X_values cfg x0, cfg.x_range.1 ≤ c ∧ c ≤ cfg.x_range.2) ∧
    (∀ c ∈ Y_values cfg y0, cfg.y_range.1 ≤ c ∧ c ≤ cfg.y_range.2) ∧
    (∀ c ∈ zimage_Z_values cfg z0, cfg.z_range.1 ≤ c ∧ c ≤ cfg.z_range.2) := by
  refine ⟨fun c hc => ?_, fun c hc => ?_, fun c hc => ?_⟩
  · have h1 := clip_mem (x0 - 1/2 * cfg.refocus_XY_size) hx
    have h2 := clip_mem (x0 + 1/2 * cfg.refocus_XY_size) hx
    exact linspace_mem h1.1 h1.2 h2.1 h2.2 hc
  · have h1 := clip_mem (y0 - 1/2 * cfg.refocus_XY_size) hy
    have h2 := clip_mem (y0 + 1/2 * cfg.refocus_XY_size) hy
    exact linspace_mem h1.1 h1.2 h2.1 h2.2 hc
  · have h1 := clip_mem (z0 - 1/2 * cfg.refocus_Z_size) hz
    have h2 := clip_mem (z0 + 1/2 * cfg.refocus_Z_size) hz
    exact linspace_mem h1.1 h1.2 h2.1 h2.2 hc

/-- Witness for C4 at a concrete configuration whose window collides
with the upper range boundary. -/
theorem grid_coordinates_in_range_witness :
    (cfgZ.x_range.1 ≤ cfgZ.x_range.2 ∧
     cfgZ.y_range.1 ≤ cfgZ.y_range.2 ∧
     cfgZ.z_range.1 ≤ cfgZ.z_range.2) ∧
    ((∀ c ∈ X_values cfgZ (19/2), cfgZ.x_range.1 ≤ c ∧ c ≤ cfgZ.x_range.2) ∧
     (∀ c ∈ Y_values cfgZ 0, cfgZ.y_range.1 ≤ c ∧ c ≤ cfgZ.y_range.2) ∧
     (∀ c ∈ zimage_Z_values cfgZ (-10), cfgZ.z_range.1 ≤ c ∧ c ≤ cfgZ.z_range.2)) :=
  ⟨⟨by decide, by decide, by decide⟩,
   grid_coordinates_in_range cfgZ (19/2) 0 (-10) (by decide) (by decide) (by decide)⟩

lemma linspace_length (a b : ℚ) (n : ℕ) : (linspace a b n).length = n := by
  simp [linspace]

lemma linspace_reverse (a b : ℚ) {n : ℕ} (h : n ≠ 1) :
    linspace b a n = (linspace a b n).reverse := by
  rcases Nat.eq_zero_or_pos n with h0 | hpos
  · subst h0; simp [linspace]
  · have hn2 : 2 ≤ n := by omega
    have hne : ((n:ℚ) - 1) ≠ 0 := by
      have : (2:ℚ) ≤ (n:ℚ) := by exact_mod_cast hn2
      intro hcon
      linarith
    apply List.ext_getElem
    · simp [linspace]
    · intro i h1 h2
      have hi : i < n := by simpa [linspace] using h1
      rw [List.getElem_reverse]
      simp only [linspace, List.getElem_map, List.getElem_range,
                 List.length_map, List.length_range]
      have hcast : (((n - 1 - i : ℕ)) : ℚ) = (n:ℚ) - 1 - (i:ℚ) := by
        rw [Nat.cast_sub (by omega : i ≤ n - 1), Nat.cast_sub (by omega : 1 ≤ n)]
        norm_num
      rw [hcast]
      field_simp
      ring

/-- C8 (amended): for every XY window and every resolution other than
the degenerate single-point resolution `1`, the return X sweep equals
the elementwise reverse of the forward X sweep. -/
theorem return_X_values_eq_reverse (cfg : Cfg) (x0 : ℚ)
    (h : cfg.optimizer_XY_res ≠ 1) :
    return_X_values cfg x0 = (X_values cfg x0).reverse := by
  unfold return_X_values X_values
  exact linspace_reverse _ _ h

/-- Witness for C8's amended theorem at resolution 10. -/
theorem return_X_values_eq_reverse_witness :
    cfgWide.optimizer_XY_res ≠ 1 ∧
    return_X_values cfgWide 0 = (X_values cfgWide 0).reverse :=
  ⟨by decide, return_X_values_eq_reverse cfgWide 0 (by decide)⟩

/-- C8 counterexample: with resolution `1` the forward sweep is
`[xmin]` and the return sweep is `[xmax]` (numpy's `linspace` keeps the
*start* point when `num = 1`), so the return sweep is not the reverse of
the forward sweep. -/
theorem return_X_values_res1_cex :
    return_X_values cfgRes1 0 ≠ (X_values cfgRes1 0).reverse := by
  norm_num [return_X_values, X_values, cfgRes1, linspace, clip,
            List.range_succ, min_def, max_def]

/-- C1 (evaluation at the failing input): a successful fit whose X
shift (`1`) is inside `_max_offset = 3` but whose Y shift (`100`) far
exceeds it, with both centers inside the physical ranges, is **accepted**
— the estimate moves to the fitted center — because the source tests
`abs(_initial_pos_x - center_x) < _max_offset` twice and never tests the
Y shift. -/
theorem xy_offset_guard_never_checks_y :
    (set_optimized_xy_from_fit cfgWide 0 0
        { success := true, center_x := 1, center_y := 100, sigma_x := 2, sigma_y := 2 }
        { optim_pos_x := 0, optim_pos_y := 0, optim_pos_z := 0,
          optim_sigma_x := 0, optim_sigma_y := 0, optim_sigma_z := 0 }) =
      { optim_pos_x := 1, optim_pos_y := 100, optim_pos_z := 0,
        optim_sigma_x := 2, optim_sigma_y := 2, optim_sigma_z := 0 } ∧
    ¬ |(0:ℚ) - 100| < cfgWide.max_offset := by
  constructor
  · norm_num [set_optimized_xy_from_fit, cfgWide, abs_lt]
  · norm_num [cfgWide, abs_lt]

/-- C2 (evaluation at the failing inputs): (i) a successful Z fit whose
shift (`5`) exceeds `_max_offset = 3` leaves the estimate and sigma
completely unchanged (the source has no `else` for the offset guard) —
in particular the estimate is *not* moved to the near scan-window edge
`initial + size/2 = 1` with zero sigma; (ii) an in-offset but
out-of-range center *below* the start (`-11 < -10`) moves the estimate
to `initial + size/2 = -8`, the **upper** edge, not the lower edge
`initial - size/2 = -10` the spec prescribes. -/
theorem z_offset_exceeded_leaves_estimate :
    (do_z_optimization_update cfgZ 0 { success := true, center := 5, sigma := 1 }
        { optim_pos_x := 0, optim_pos_y := 0, optim_pos_z := 9,
          optim_sigma_x := 0, optim_sigma_y := 0, optim_sigma_z := 4 }) =
      { optim_pos_x := 0, optim_pos_y := 0, optim_pos_z := 9,
        optim_sigma_x := 0, optim_sigma_y := 0, optim_sigma_z := 4 } ∧
    ¬ |(0:ℚ) - 5| < cfgZ.max_offset ∧
    (9:ℚ) ≠ 0 + 1/2 * cfgZ.refocus_Z_size ∧
    (do_z_optimization_update cfgZ (-9) { success := true, center := -11, sigma := 1 }
        { optim_pos_x := 0, optim_pos_y := 0, optim_pos_z := 9,
          optim_sigma_x := 0, optim_sigma_y := 0, optim_sigma_z := 4 }).optim_pos_z = -8 ∧
    (-8:ℚ) ≠ -9 - 1/2 * cfgZ.refocus_Z_size := by
  refine ⟨?_, ?_, ?_, ?_, ?_⟩ <;>
    norm_num [do_z_optimization_update, cfgZ, abs_lt]

/-- C9: in the XY step, a successful fit whose X shift passes the
(duplicated) offset guard but whose fitted center lies outside the
physical X range or outside the physical Y range leaves the whole best
estimate — positions and sigmas — completely unchanged: no fallback and
no edge-seeking clamp exists for XY. -/
theorem xy_out_of_range_leaves_state_unchanged (cfg : Cfg) (ix iy : ℚ)
    (r : XYFitResult) (s : OptimState) (hs : r.success = true)
    (hoff : |ix - r.center_x| < cfg.max_offset)
    (hout : ¬ (cfg.x_range.1 ≤ r.center_x ∧ r.center_x ≤ cfg.x_range.2) ∨
            ¬ (cfg.y_range.1 ≤ r.center_y ∧ r.center_y ≤ cfg.y_range.2)) :
    set_optimized_xy_from_fit cfg ix iy r s = s := by
  unfold set_optimized_xy_from_fit
  rw [hs, if_neg (show ¬(true = false) by simp)]
  split_ifs with h2 h3 h4
  · exact absurd hout (by tauto)
  · rfl
  · rfl
  · exact absurd ⟨hoff, hoff⟩ h2

/-- Witness for C9: an in-offset fit at `center_y = 50`, outside the Y
range `[-10, 10]`, leaves a nontrivial state untouched. -/
theorem xy_out_of_range_leaves_state_unchanged_witness :
    ({ success := true, center_x := 1, center_y := 50,
       sigma_x := 2, sigma_y := 2 } : XYFitResult).success = true ∧
    |(0:ℚ) - 1| < cfgZ.max_offset ∧
    ¬ (cfgZ.y_range.1 ≤ (50:ℚ) ∧ (50:ℚ) ≤ cfgZ.y_range.2) ∧
    set_optimized_xy_from_fit cfgZ 0 0
        { success := true, center_x := 1, center_y := 50, sigma_x := 2, sigma_y := 2 }
        { optim_pos_x := 5, optim_pos_y := 6, optim_pos_z := 7,
          optim_sigma_x := 1, optim_sigma_y := 2, optim_sigma_z := 3 } =
      { optim_pos_x := 5, optim_pos_y := 6, optim_pos_z := 7,
        optim_sigma_x := 1, optim_sigma_y := 2, optim_sigma_z := 3 } :=
  ⟨rfl, by norm_num [cfgZ, abs_lt], by norm_num [cfgZ],
   xy_out_of_range_leaves_state_unchanged cfgZ 0 0 _ _ rfl
     (by norm_num [cfgZ, abs_lt]) (Or.inr (by norm_num [cfgZ]))⟩

/-- C5 counterexample: in a step whose starting position (the scan
window center, `optim_pos_x = 2`) differs from the run's original start
(`_initial_pos_x = 0`), a failed fit resets the estimate to the run
start `0`, not to the step's starting position `2`. -/
theorem fit_failure_fallback_cex :
    (set_optimized_xy_from_fit cfgWide 0 0
        { success := false, center_x := 0, center_y := 0, sigma_x := 0, sigma_y := 0 }
        { optim_pos_x := 2, optim_pos_y := 0, optim_pos_z := 0,
          optim_sigma_x := 1, optim_sigma_y := 1, optim_sigma_z := 0 }).optim_pos_x = 0 ∧
    ({ optim_pos_x := 2, optim_pos_y := 0, optim_pos_z := 0,
       optim_sigma_x := 1, optim_sigma_y := 1, optim_sigma_z := 0 } :
        OptimState).optim_pos_x = 2 ∧
    (0:ℚ) ≠ 2 := by
  norm_num [set_optimized_xy_from_fit]

/-- C5 (amended): on fit non-success, both the XY and the Z update
reset the step's axes to the **run's** starting position
(`_initial_pos_*`, which equals the step's starting position whenever no
earlier step corrected those axes) with zero sigma, and both handlers
unconditionally emit `_sigDoNextOptimizationStep`, so the run continues
to the next configured step rather than aborting. -/
theorem fit_failure_falls_back_to_run_start (cfg : Cfg) (ix iy iz : ℚ)
    (r : XYFitResult) (rz : ZFitResult) (s : OptimState)
    (mc : MCfg) (ms mz : MState)
    (hr : r.success = false) (hrz : rz.success = false) :
    set_optimized_xy_from_fit cfg ix iy r s =
      { s with optim_pos_x := ix, optim_pos_y := iy,
               optim_sigma_x := 0, optim_sigma_y := 0 } ∧
    do_z_optimization_update cfg iz rz s =
      { s with optim_pos_z := iz, optim_sigma_z := 0 } ∧
    (set_optimized_xy_from_fit_step mc ms).queue =
      ms.queue ++ [Event.doNextOptimizationStep] ∧
    (do_z_optimization_step mc mz).queue =
      (scan_z_line mc mz).queue ++ [Event.doNextOptimizationStep] := by
  refine ⟨?_, ?_, ?_, ?_⟩
  · simp [set_optimized_xy_from_fit, hr]
  · simp [do_z_optimization_update, hrz]
  · unfold set_optimized_xy_from_fit_step
    by_cases h : mc.caller_tag = "xy_template_image" <;> simp [h, emit]
  · unfold do_z_optimization_step
    by_cases h : mc.caller_tag = "z_template_image" <;> simp [h, emit]

/-- Witness for C5's amended theorem at concrete failing fits. -/
theorem fit_failure_falls_back_to_run_start_witness :
    ({ success := false, center_x := 0, center_y := 0,
       sigma_x := 0, sigma_y := 0 } : XYFitResult).success = false ∧
    ({ success := false, center := 0, sigma := 0 } : ZFitResult).success = false ∧
    set_optimized_xy_from_fit cfgWide 1 2
        { success := false, center_x := 0, center_y := 0, sigma_x := 0, sigma_y := 0 }
        { optim_pos_x := 5, optim_pos_y := 6, optim_pos_z := 7,
          optim_sigma_x := 1, optim_sigma_y := 2, optim_sigma_z := 3 } =
      { optim_pos_x := 1, optim_pos_y := 2, optim_pos_z := 7,
        optim_sigma_x := 0, optim_sigma_y := 0, optim_sigma_z := 3 } ∧
    do_z_optimization_update cfgWide 4
        { success := false, center := 0, sigma := 0 }
        { optim_pos_x := 5, optim_pos_y := 6, optim_pos_z := 7,
          optim_sigma_x := 1, optim_sigma_y := 2, optim_sigma_z := 3 } =
      { optim_pos_x := 5, optim_pos_y := 6, optim_pos_z := 4,
        optim_sigma_x := 1, optim_sigma_y := 2, optim_sigma_z := 0 } ∧
    (set_optimized_xy_from_fit_step mcEmptySeq (start_refocus_state mcEmptySeq 0 0 0)).queue =
      (start_refocus_state mcEmptySeq 0 0 0).queue ++ [Event.doNextOptimizationStep] ∧
    (do_z_optimization_step mcEmptySeq (start_refocus_state mcEmptySeq 0 0 0)).queue =
      (scan_z_line mcEmptySeq (start_refocus_state mcEmptySeq 0 0 0)).queue ++
        [Event.doNextOptimizationStep] := by
  have h := fit_failure_falls_back_to_run_start cfgWide 1 2 4
    { success := false, center_x := 0, center_y := 0, sigma_x := 0, sigma_y := 0 }
    { success := false, center := 0, sigma := 0 }
    { optim_pos_x := 5, optim_pos_y := 6, optim_pos_z := 7,
      optim_sigma_x := 1, optim_sigma_y := 2, optim_sigma_z := 3 }
    mcEmptySeq (start_refocus_state mcEmptySeq 0 0 0) (start_refocus_state mcEmptySeq 0 0 0)
    rfl rfl
  exact ⟨rfl, rfl, h.1, h.2.1, h.2.2.1, h.2.2.2⟩

/-- C6 counterexample: with surface subtraction enabled, a background
line whose sentinel sits in its **second** sample (call 3 of the run
returns `[[3], [-1]]`) does *not* abort — the source only inspects
`line_bg_counts[0]` — and the reported Z line becomes the elementwise
difference `[[8],[6]] − [[3],[-1]] = [[5],[7]]`, sentinel and all. -/
theorem background_sentinel_second_sample_cex :
    hasErr [[3], [-1]] = true ∧
    (scan_z_line mcBackground (start_refocus_state mcBackground 0 0 0)).stopRequested = false ∧
    (scan_z_line mcBackground (start_refocus_state mcBackground 0 0 0)).z_refocus_line =
      some [[5], [7]] := by
  refine ⟨by decide, ?_, ?_⟩ <;>
    simp +decide only [scan_z_line, move_to_start_pos, scanLineCall, hasErr,
      firstRowHasErr, matSub, stop_refocus, emit, mcBackground, start_refocus_state,
      isXyTemplateFit, isZTemplateFit, cfgRun] <;>
    norm_num

/-- C6 (amended): with surface subtraction enabled and the move and
primary scans healthy, a background line whose **first sample** carries
the sentinel aborts exactly like a primary-line failure (stop request +
queued stop event); a sentinel confined to later samples does not abort,
and the reported Z line is the elementwise difference
foreground − background. -/
theorem surface_background_failure_handling (mc : MCfg) (s : MState)
    (hsub : mc.do_surface_subtraction = true)
    (h0 : hasErr (mc.device s.scanCallCount) = false)
    (h1 : hasErr (mc.device (s.scanCallCount + 1)) = false)
    (h2 : hasErr (mc.device (s.scanCallCount + 2)) = false) :
    (firstRowHasErr (mc.device (s.scanCallCount + 3)) = true →
       (scan_z_line mc s).stopRequested = true ∧
       (scan_z_line mc s).queue = s.queue ++ [Event.scanNextXyLine]) ∧
    (firstRowHasErr (mc.device (s.scanCallCount + 3)) = false →
       (scan_z_line mc s).z_refocus_line =
         some (matSub (mc.device (s.scanCallCount + 1))
                      (mc.device (s.scanCallCount + 3))) ∧
       (scan_z_line mc s).stopRequested = s.stopRequested) := by
  constructor
  · intro hbg
    unfold scan_z_line move_to_start_pos scanLineCall
    by_cases htag : mc.caller_tag = "z_template_image" <;>
      simp [h0, h1, h2, hsub, hbg, htag, stop_refocus, emit]
  · intro hbg
    unfold scan_z_line move_to_start_pos scanLineCall
    by_cases htag : mc.caller_tag = "z_template_image" <;>
      simp [h0, h1, h2, hsub, hbg, htag]

/-- Witness for C6's amended theorem: the same device as the
counterexample (sentinel in the background's second sample) yields the
differenced line. -/
theorem surface_background_failure_handling_witness :
    mcBackground.do_surface_subtraction = true ∧
    hasErr (mcBackground.device 0) = false ∧
    hasErr (mcBackground.device 1) = false ∧
    hasErr (mcBackground.device 2) = false ∧
    (firstRowHasErr (mcBackground.device 3) = false →
       (scan_z_line mcBackground (start_refocus_state mcBackground 0 0 0)).z_refocus_line =
         some (matSub (mcBackground.device 1) (mcBackground.device 3)) ∧
       (scan_z_line mcBackground (start_refocus_state mcBackground 0 0 0)).stopRequested =
         (start_refocus_state mcBackground 0 0 0).stopRequested) :=
  ⟨rfl, by decide, by decide, by decide,
   (surface_background_failure_handling mcBackground
      (start_refocus_state mcBackground 0 0 0) rfl (by decide) (by decide) (by decide)).2⟩

/-- C10: an empty optimization sequence passes
`check_optimization_sequence` unchanged, and a normal run (neither
template-capture tag) with an empty sequence processes exactly two
queued events — the first `_do_next_optimization_step` immediately
emits the finished signal — executing zero scan steps, zero device
calls and zero fits, releasing the scanner once, and reporting the
starting position. -/
theorem empty_sequence_run (mc : MCfg) (rx ry rz : ℚ)
    (hseq : mc.optimization_sequence = [])
    (h1 : mc.caller_tag ≠ "xy_template_image")
    (h2 : mc.caller_tag ≠ "z_template_image") :
    check_optimization_sequence [] = [] ∧
    (runM mc 2 (start_refocus_state mc rx ry rz)).queue = [] ∧
    (runM mc 2 (start_refocus_state mc rx ry rz)).scanCallCount = 0 ∧
    (runM mc 2 (start_refocus_state mc rx ry rz)).xyFitCount = 0 ∧
    (runM mc 2 (start_refocus_state mc rx ry rz)).zFitCount = 0 ∧
    (runM mc 2 (start_refocus_state mc rx ry rz)).optimization_step = 0 ∧
    (runM mc 2 (start_refocus_state mc rx ry rz)).killCount = 1 ∧
    (runM mc 2 (start_refocus_state mc rx ry rz)).finishedEvents =
      [(mc.caller_tag, ([rx, ry, rz, 0]).take mc.n_ch)] := by
  have hrun : runM mc 2 (start_refocus_state mc rx ry rz) =
      finish_refocus mc { start_refocus_state mc rx ry rz with queue := [] } := by
    simp [runM, stepM, do_next_optimization_step, h1, h2, hseq, emit,
          start_refocus_state]
  refine ⟨rfl, ?_, ?_, ?_, ?_, ?_, ?_, ?_⟩ <;> rw [hrun] <;>
    unfold finish_refocus <;>
    by_cases hxy : isXyTemplateFit mc <;> by_cases hz : isZTemplateFit mc <;>
    simp [hxy, hz, start_refocus_state, sub_add_cancel]

/-- Witness for C10 at a concrete run configuration. -/
theorem empty_sequence_run_witness :
    mcEmptySeq.optimization_sequence = [] ∧
    mcEmptySeq.caller_tag ≠ "xy_template_image" ∧
    mcEmptySeq.caller_tag ≠ "z_template_image" ∧
    ((runM mcEmptySeq 2 (start_refocus_state mcEmptySeq 1 2 3)).killCount = 1 ∧
     (runM mcEmptySeq 2 (start_refocus_state mcEmptySeq 1 2 3)).scanCallCount = 0 ∧
     (runM mcEmptySeq 2 (start_refocus_state mcEmptySeq 1 2 3)).finishedEvents =
       [(mcEmptySeq.caller_tag, ([1, 2, 3, 0]).take mcEmptySeq.n_ch)]) := by
  have h := empty_sequence_run mcEmptySeq 1 2 3 rfl (by decide) (by decide)
  exact ⟨rfl, by decide, by decide, h.2.2.2.2.2.2.1, h.2.2.1, h.2.2.2.2.2.2.2⟩

/-- C3 (evaluation at the failing input): the device returns the
sentinel on the forward scan of the first XY line (call 1) and valid
counts on every other call.  Because the failure path queues
`_sigScanNextXyLine` twice — once inside `stop_refocus()` and once at
the failure site — the first queued event finishes the run (release 1)
and **clears the stop flag**, and the second restarts the scan: the
run goes on to scan five more device lines, fit them, and finish a
second time.  After the eight queued events the scanner has been
released twice, two `sigRefocusFinished` events were emitted, and seven
device calls happened — not the immediate single-release abort the
claim describes. -/
theorem scan_sentinel_double_release :
    hasErr (mcSentinel.device 1) = true ∧
    (runM mcSentinel 8 (start_refocus_state mcSentinel 5 5 5)).killCount = 2 ∧
    (runM mcSentinel 8 (start_refocus_state mcSentinel 5 5 5)).finishedEvents.length = 2 ∧
    (runM mcSentinel 8 (start_refocus_state mcSentinel 5 5 5)).scanCallCount = 7 ∧
    (runM mcSentinel 8 (start_refocus_state mcSentinel 5 5 5)).queue = [] := by
  refine ⟨by decide, ?_, ?_, ?_, ?_⟩ <;>
    simp +decide [runM, stepM, refocus_xy_line, do_next_optimization_step,
      set_optimized_xy_from_fit_step, set_optimized_xy_from_fit,
      finish_refocus, initialize_xy_refocus_image,
      move_to_start_pos, scanLineCall, stop_refocus, emit, hasErr,
      xyTemplateIsBlank, isXyTemplateFit, isZTemplateFit,
      start_refocus_state, mcSentinel, cfgRun] <;>
    norm_num

/-! ### The `'xy_template_image'` capture run (C7) -/

lemma runM_add (mc : MCfg) (a b : ℕ) (s : MState) :
    runM mc (a + b) s = runM mc b (runM mc a s) := by
  induction a generalizing s with
  | zero => rw [Nat.zero_add]; rfl
  | succ n ih =>
      rw [show n + 1 + b = (n + b) + 1 from by omega]
      rw [show runM mc ((n + b) + 1) s = runM mc (n + b) (stepM mc s) from rfl]
      rw [ih (stepM mc s)]
      rfl

lemma xyCaptureFill_zero (mc : MCfg) :
    xyCaptureFill mc 0 = List.replicate mc.cfg.optimizer_XY_res none := by
  unfold xyCaptureFill
  apply List.ext_getElem <;> simp

lemma xyCaptureFill_set (mc : MCfg) (k : ℕ) :
    (xyCaptureFill mc k).set k (some (mc.device (2 * k + 1))) =
      xyCaptureFill mc (k + 1) := by
  unfold xyCaptureFill
  apply List.ext_getElem
  · simp
  · intro i h1 h2
    rw [List.getElem_set]
    simp only [List.getElem_map, List.getElem_range]
    by_cases hik : k = i
    · subst hik; simp
    · rw [if_neg hik]
      by_cases hik2 : i < k
      · rw [if_pos hik2, if_pos (by omega)]
      · rw [if_neg hik2, if_neg (by omega)]

lemma xyCaptureFill_full (mc : MCfg) :
    xyCaptureFill mc mc.cfg.optimizer_XY_res =
      (List.range mc.cfg.optimizer_XY_res).map
        (fun i => some (mc.device (2 * i + 1))) := by
  unfold xyCaptureFill
  apply List.map_congr_left
  intro i hi
  rw [if_pos (List.mem_range.mp hi)]

lemma capture_first (mc : MCfg) (rx ry rz : ℚ)
    (htag : mc.caller_tag = "xy_template_image") :
    stepM mc (start_refocus_state mc rx ry rz) = xyCaptureStart mc rx ry rz := by
  simp [stepM, start_refocus_state, do_next_optimization_step, htag,
        initialize_xy_refocus_image, emit, xyCaptureStart]

lemma capture_step0 (mc : MCfg) (rx ry rz : ℚ)
    (htag : mc.caller_tag = "xy_template_image")
    (hdev : ∀ n, hasErr (mc.device n) = false) :
    stepM mc (xyCaptureStart mc rx ry rz) = xyCaptureMid mc rx ry rz 1 := by
  have hset : (List.replicate mc.cfg.optimizer_XY_res (none : Option Counts)).set 0
      (some (mc.device 1)) = xyCaptureFill mc 1 := by
    rw [← xyCaptureFill_zero mc]
    simpa using xyCaptureFill_set mc 0
  by_cases hq : 1 < mc.cfg.optimizer_XY_res <;>
    simp [stepM, xyCaptureStart, xyCaptureMid, start_refocus_state, refocus_xy_line,
          move_to_start_pos, scanLineCall, hdev, htag, stop_refocus, emit, hset, hq]

lemma capture_stepS (mc : MCfg) (rx ry rz : ℚ)
    (htag : mc.caller_tag = "xy_template_image")
    (hdev : ∀ n, hasErr (mc.device n) = false)
    {k : ℕ} (hk1 : 1 ≤ k) (hkR : k < mc.cfg.optimizer_XY_res) :
    stepM mc (xyCaptureMid mc rx ry rz k) = xyCaptureMid mc rx ry rz (k + 1) := by
  have hset := xyCaptureFill_set mc k
  have hk0 : k ≠ 0 := by omega
  have harith : 2 * k + 1 + 1 + 1 = 2 * (k + 1) + 1 := by omega
  by_cases hq : k + 1 < mc.cfg.optimizer_XY_res <;>
    simp [stepM, xyCaptureMid, start_refocus_state, refocus_xy_line,
          move_to_start_pos, scanLineCall, hdev, htag, stop_refocus, emit,
          hset, hk0, hkR, hq, harith]

lemma capture_chain (mc : MCfg) (rx ry rz : ℚ)
    (htag : mc.caller_tag = "xy_template_image")
    (hdev : ∀ n, hasErr (mc.device n) = false) :
    ∀ j k, 1 ≤ k → j + k = mc.cfg.optimizer_XY_res →
      runM mc j (xyCaptureMid mc rx ry rz k) =
        xyCaptureMid mc rx ry rz mc.cfg.optimizer_XY_res := by
  intro j
  induction j with
  | zero =>
      intro k hk hjk
      have hkR : k = mc.cfg.optimizer_XY_res := by omega
      rw [hkR]
      rfl
  | succ n ih =>
      intro k hk hjk
      have hkR : k < mc.cfg.optimizer_XY_res := by omega
      rw [show runM mc (n + 1) (xyCaptureMid mc rx ry rz k) =
            runM mc n (stepM mc (xyCaptureMid mc rx ry rz k)) from rfl]
      rw [capture_stepS mc rx ry rz htag hdev hk hkR]
      exact ih (k + 1) (by omega) (by omega)

/-- C7: a run with `caller_tag = 'xy_template_image'` on an error-free
device executes exactly one optimization step (one XY scan: `2·res + 1`
device calls — the initial move plus a forward and a return trace per
line), stores the acquired forward-line counts verbatim as the XY
template, never invokes the fit service, releases the scanner once, and
reports the originally requested position. -/
theorem xy_template_capture_run (mc : MCfg) (rx ry rz : ℚ)
    (htag : mc.caller_tag = "xy_template_image")
    (hdev : ∀ n, hasErr (mc.device n) = false)
    (hres : 1 ≤ mc.cfg.optimizer_XY_res) :
    (runM mc (mc.cfg.optimizer_XY_res + 4) (start_refocus_state mc rx ry rz)).killCount = 1 ∧
    (runM mc (mc.cfg.optimizer_XY_res + 4) (start_refocus_state mc rx ry rz)).finishedEvents =
      [(mc.caller_tag, ([rx, ry, rz, 0]).take mc.n_ch)] ∧
    (runM mc (mc.cfg.optimizer_XY_res + 4) (start_refocus_state mc rx ry rz)).xyFitCount = 0 ∧
    (runM mc (mc.cfg.optimizer_XY_res + 4) (start_refocus_state mc rx ry rz)).zFitCount = 0 ∧
    (runM mc (mc.cfg.optimizer_XY_res + 4) (start_refocus_state mc rx ry rz)).optimization_step = 1 ∧
    (runM mc (mc.cfg.optimizer_XY_res + 4) (start_refocus_state mc rx ry rz)).xy_template_image =
      (List.range mc.cfg.optimizer_XY_res).map (fun i => some (mc.device (2 * i + 1))) ∧
    (runM mc (mc.cfg.optimizer_XY_res + 4) (start_refocus_state mc rx ry rz)).queue = [] ∧
    (runM mc (mc.cfg.optimizer_XY_res + 4) (start_refocus_state mc rx ry rz)).scanCallCount =
      2 * mc.cfg.optimizer_XY_res + 1 := by
  have e1 : runM mc (mc.cfg.optimizer_XY_res + 4) (start_refocus_state mc rx ry rz) =
      runM mc 3 (runM mc (mc.cfg.optimizer_XY_res - 1)
        (runM mc 1 (runM mc 1 (start_refocus_state mc rx ry rz)))) := by
    rw [← runM_add, ← runM_add, ← runM_add]
    congr 1
    omega
  have f1 : runM mc 1 (start_refocus_state mc rx ry rz) = xyCaptureStart mc rx ry rz := by
    rw [show runM mc 1 (start_refocus_state mc rx ry rz) =
          stepM mc (start_refocus_state mc rx ry rz) from rfl]
    exact capture_first mc rx ry rz htag
  have f2 : runM mc 1 (xyCaptureStart mc rx ry rz) = xyCaptureMid mc rx ry rz 1 := by
    rw [show runM mc 1 (xyCaptureStart mc rx ry rz) =
          stepM mc (xyCaptureStart mc rx ry rz) from rfl]
    exact capture_step0 mc rx ry rz htag hdev
  have f3 : runM mc (mc.cfg.optimizer_XY_res - 1) (xyCaptureMid mc rx ry rz 1) =
      xyCaptureMid mc rx ry rz mc.cfg.optimizer_XY_res :=
    capture_chain mc rx ry rz htag hdev _ 1 (by omega) (by omega)
  rw [e1, f1, f2, f3]
  have hfull := xyCaptureFill_full mc
  by_cases hxy : isXyTemplateFit mc <;> by_cases hz : isZTemplateFit mc <;>
    simp [runM, stepM, xyCaptureMid, start_refocus_state, set_optimized_xy_from_fit_step,
          do_next_optimization_step, finish_refocus, emit, htag, hxy, hz, hfull,
          sub_add_cancel]

/-- Witness for C7: a 2×2 capture run on a constant error-free device,
with a template fit mode and a nonzero template cursor. -/
theorem xy_template_capture_run_witness :
    mcCapture.caller_tag = "xy_template_image" ∧
    (∀ n, hasErr (mcCapture.device n) = false) ∧
    1 ≤ mcCapture.cfg.optimizer_XY_res ∧
    ((runM mcCapture (mcCapture.cfg.optimizer_XY_res + 4)
        (start_refocus_state mcCapture 1 2 3)).killCount = 1 ∧
     (runM mcCapture (mcCapture.cfg.optimizer_XY_res + 4)
        (start_refocus_state mcCapture 1 2 3)).finishedEvents =
       [(mcCapture.caller_tag, ([1, 2, 3, 0]).take mcCapture.n_ch)] ∧
     (runM mcCapture (mcCapture.cfg.optimizer_XY_res + 4)
        (start_refocus_state mcCapture 1 2 3)).xyFitCount = 0 ∧
     (runM mcCapture (mcCapture.cfg.optimizer_XY_res + 4)
        (start_refocus_state mcCapture 1 2 3)).xy_template_image =
       (List.range mcCapture.cfg.optimizer_XY_res).map
         (fun i => some (mcCapture.device (2 * i + 1)))) := by
  have hdev : ∀ n, hasErr (mcCapture.device n) = false := fun n => rfl
  have h := xy_template_capture_run mcCapture 1 2 3 rfl hdev (by decide)
  exact ⟨rfl, hdev, by decide, h.1, h.2.1, h.2.2.1, h.2.2.2.2.2.1⟩

end OptimizerLogic
